import Mathlib

/-
Shallow embedding of the snowflake-revoke-session action (src/src/script.mjs
together with the bundled auth utilities appended to it).

Modelling conventions:
- JS strings are Lean String; an optional JS field is Option String, and JS
  truthiness of such a field is strTruthy (missing or empty string is falsy).
- Numbers produced by parseFloat are modelled as exact rationals (Rat); the
  claims only involve values on which IEEE doubles are exact.
- Thrown errors become Except values.  RetryableError carries retryable=true,
  FatalError retryable=false, and a plain Error carries no flag; the three are
  the constructors of JsError.
- Network effects are modelled by passing the HTTP responses in as data and
  returning the list of outbound requests actually issued as a trace.
- new Date().toISOString() is modelled by a clock parameter now : String.
-/

namespace SnowflakeRevoke

/-- JS truthiness of an optional string field: false for a missing field and
for the empty string, true otherwise. -/
def strTruthy : Option String → Bool
  | none => false
  | some s => !(s == "")

/-- The character class matched by the JS regular-expression escape backslash-s
(whitespace), by code point. -/
def isJsSpace (c : Char) : Bool :=
  let n := c.toNat
  n == 0x20 || n == 0x09 || n == 0x0a || n == 0x0d || n == 0x0b || n == 0x0c ||
  n == 0xa0 || n == 0x1680 || (decide (0x2000 ≤ n) && decide (n ≤ 0x200a)) ||
  n == 0x2028 || n == 0x2029 || n == 0x202f || n == 0x205f || n == 0x3000 ||
  n == 0xfeff

/-- JS String.prototype.trim: strip whitespace from both ends. -/
def jsTrim (s : String) : String :=
  String.mk (((s.data.dropWhile isJsSpace).reverse.dropWhile isJsSpace).reverse)

/-- Whether the second character list is an initial segment of the first
(String.prototype.startsWith). -/
def leadsWith : List Char → List Char → Bool
  | _, [] => true
  | [], _ :: _ => false
  | c :: cs, p :: ps => c == p && leadsWith cs ps

/-- JS String.prototype.startsWith. -/
def jsStartsWith (s pat : String) : Bool :=
  leadsWith s.data pat.data

/-- JS String.prototype.endsWith. -/
def jsEndsWith (s pat : String) : Bool :=
  leadsWith s.data.reverse pat.data.reverse

/-- Accumulating splitter for a single-character separator. -/
def splitDotAux : List Char → List Char → List String
  | [], acc => [String.mk acc.reverse]
  | c :: rest, acc =>
    if c = '.' then String.mk acc.reverse :: splitDotAux rest []
    else splitDotAux rest (c :: acc)

/-- JS String.prototype.split with the dot separator: the empty string yields
one empty segment, and a string with k dots yields k+1 segments. -/
def jsSplitDot (s : String) : List String :=
  splitDotAux s.data []

/-- Errors thrown by the script: RetryableError (retryable = true), FatalError
(retryable = false), and a plain JS Error, which carries no retryable flag. -/
inductive JsError where
  | retryable (message : String)
  | fatal (message : String)
  | generic (message : String)
deriving DecidableEq

/-- The retryable flag carried by an error: some true for RetryableError,
some false for FatalError, none for an unclassified Error. -/
def JsError.retryableFlag : JsError → Option Bool
  | .retryable _ => some true
  | .fatal _ => some false
  | .generic _ => none

/-- Value of a nonempty string of decimal digits. -/
def digitsToNat (cs : List Char) : Nat :=
  cs.foldl (fun a c => 10 * a + (c.toNat - 48)) 0

/-- The unit group of the duration regex: after the number, the remaining text
must be empty (unit defaults to ms) or, case-insensitively, one of ms, s, m, h
(source line 26, group (ms|s|m|h)? with the i flag, and line 33). -/
def unitOf (r : String) : Option String :=
  let l := String.mk (r.data.map Char.toLower)
  if l = "" then some "ms"
  else if l = "ms" ∨ l = "s" ∨ l = "m" ∨ l = "h" then some l
  else none

/-- Anchored match of the duration regex from source line 26: an integer part,
an optional fraction, an optional unit.  Returns the parseFloat value of the
number group (exact, as a rational) and the lower-cased unit. -/
def durMatch (s : String) : Option (Rat × String) :=
  let cs := s.data
  let ip := cs.takeWhile Char.isDigit
  let r1 := cs.dropWhile Char.isDigit
  if ip = [] then none
  else
    match r1 with
    | '.' :: r2 =>
      let fp := r2.takeWhile Char.isDigit
      let r3 := r2.dropWhile Char.isDigit
      if fp = [] then none
      else
        match unitOf (String.mk r3) with
        | some u => some ((digitsToNat ip : Rat) + (digitsToNat fp : Rat) / ((10 : Rat) ^ fp.length), u)
        | none => none
    | _ =>
      match unitOf (String.mk r1) with
      | some u => some ((digitsToNat ip : Rat), u)
      | none => none

/-- Milliseconds per unit (the switch at source lines 35-46). -/
def unitFactor (u : String) : Rat :=
  if u = "ms" then 1
  else if u = "s" then 1000
  else if u = "m" then 60 * 1000
  else if u = "h" then 60 * 60 * 1000
  else 1

/-- Result of parseDuration: the millisecond value and whether the
invalid-format warning was logged. -/
structure DurationResult where
  value : Rat
  warned : Bool
deriving DecidableEq

/-- parseDuration (source lines 23-47).  A missing or empty string returns the
100 ms default; a string that does not match the duration regex logs a warning
and returns the default; otherwise the parsed value scaled by its unit. -/
def parseDuration (durationStr : Option String) : DurationResult :=
  match durationStr with
  | none => ⟨100, false⟩
  | some s =>
    if s = "" then ⟨100, false⟩
    else
      match durMatch s with
      | none => ⟨100, true⟩
      | some (value, unit) => ⟨value * unitFactor unit, false⟩

/-- determineTokenType (source lines 104-111): KEYPAIR_JWT when the token is
truthy and splits on the dot into exactly three segments, else OAUTH. -/
def determineTokenType (authToken : String) : String :=
  if authToken ≠ "" ∧ (jsSplitDot authToken).length = 3 then "KEYPAIR_JWT"
  else "OAUTH"

/-- The anchored case-insensitive replace of a leading Bearer-plus-whitespace
prefix by the empty string (source line 53). -/
def stripBearer (s : String) : String :=
  let cs := s.data
  let spaceNext : Bool :=
    match cs.drop 6 with
    | c :: _ => isJsSpace c
    | [] => false
  if (cs.take 6).map Char.toLower = ['b', 'e', 'a', 'r', 'e', 'r'] ∧ spaceNext then
    String.mk ((cs.drop 6).dropWhile isJsSpace)
  else s

/-- Header list built by executeStatement (source lines 52-65): the fixed
headers plus, when the detected token type is truthy, the vendor token-type
header. -/
def statementHeaders (authHeader : String) : List (String × String) :=
  let token := stripBearer authHeader
  let tokenType := determineTokenType token
  let base := [("Authorization", authHeader),
               ("Content-Type", "application/json"),
               ("Accept", "*/*")]
  if tokenType ≠ "" then
    base ++ [("X-Snowflake-Authorization-Token-Type", tokenType)]
  else base

/-- The JSON body of a successful statement response, as consumed by invoke:
only the statementHandle field is read. -/
structure StmtData where
  statementHandle : Option String
deriving DecidableEq

/-- An HTTP response to a statement call: status, statusText, the body as
text, and the parsed JSON body. -/
structure HttpResponse where
  status : Nat
  statusText : String
  bodyText : String
  data : StmtData
deriving DecidableEq

/-- An outbound request.  A statement request records the URL, headers and
the SQL text (the wire body is the JSON serialisation of the single-field
statement object); a token request records the URL, headers and the form
fields appended to the URLSearchParams body, in order. -/
inductive Request where
  | statement (url : String) (headers : List (String × String)) (stmt : String)
  | token (url : String) (headers : List (String × String)) (form : List (String × String))
deriving DecidableEq

/-- The response interpretation of executeStatement (source lines 73-101):
response.ok means a status in 200..299; otherwise the status-to-error mapping
in source order. -/
def statementOutcome (resp : HttpResponse) : Except JsError StmtData :=
  if 200 ≤ resp.status ∧ resp.status ≤ 299 then .ok resp.data
  else if resp.status = 429 then .error (.retryable "Snowflake API rate limit exceeded")
  else if resp.status = 401 then .error (.fatal "Invalid or expired authentication token")
  else if resp.status = 403 then .error (.fatal "Insufficient permissions to execute statement")
  else if resp.status = 422 then .error (.fatal ("Invalid SQL statement: " ++ resp.bodyText))
  else if 500 ≤ resp.status then .error (.retryable ("Snowflake API server error: " ++ toString resp.status))
  else .error (.fatal ("Failed to execute statement: " ++ toString resp.status ++ " " ++ resp.statusText ++ " - " ++ resp.bodyText))

/-- executeStatement (source lines 49-102): issues one POST to the statements
endpoint and interprets the given response.  Returns the outcome together with
the request that was sent. -/
def executeStatement (stmt authHeader baseUrl : String) (resp : HttpResponse) :
    Except JsError StmtData × Request :=
  let url := baseUrl ++ "/api/v2/statements"
  let req := Request.statement url (statementHeaders authHeader) stmt
  (statementOutcome resp, req)

/-- UTF-8 encoding of one character (the bytes Buffer.from produces). -/
def utf8BytesChar (c : Char) : List Nat :=
  let n := c.toNat
  if n < 0x80 then [n]
  else if n < 0x800 then [0xc0 ||| (n >>> 6), 0x80 ||| (n &&& 0x3f)]
  else if n < 0x10000 then
    [0xe0 ||| (n >>> 12), 0x80 ||| ((n >>> 6) &&& 0x3f), 0x80 ||| (n &&& 0x3f)]
  else
    [0xf0 ||| (n >>> 18), 0x80 ||| ((n >>> 12) &&& 0x3f),
     0x80 ||| ((n >>> 6) &&& 0x3f), 0x80 ||| (n &&& 0x3f)]

/-- UTF-8 bytes of a string. -/
def utf8Bytes (s : String) : List Nat :=
  (s.data.map utf8BytesChar).flatten

/-- The base64 alphabet. -/
def base64Chars : List Char :=
  "ABCDEFGHIJKLMNOPQRSTUVWXYZabcdefghijklmnopqrstuvwxyz0123456789+/".data

/-- The base64 digit for a 6-bit value. -/
def b64c (n : Nat) : Char := base64Chars.getD n 'A'

/-- Standard base64 encoding with padding, as Buffer.toString base64. -/
def base64Encode : List Nat → String
  | [] => ""
  | [b1] => String.mk [b64c (b1 >>> 2), b64c ((b1 &&& 3) <<< 4)] ++ "=="
  | [b1, b2] =>
    String.mk [b64c (b1 >>> 2), b64c (((b1 &&& 3) <<< 4) ||| (b2 >>> 4)),
               b64c ((b2 &&& 15) <<< 2)] ++ "="
  | b1 :: b2 :: b3 :: rest =>
    String.mk [b64c (b1 >>> 2), b64c (((b1 &&& 3) <<< 4) ||| (b2 >>> 4)),
               b64c (((b2 &&& 15) <<< 2) ||| (b3 >>> 6)), b64c (b3 &&& 63)] ++
    base64Encode rest

/-- The secrets consumed from the execution context. -/
structure Secrets where
  BEARER_AUTH_TOKEN : Option String := none
  BASIC_USERNAME : Option String := none
  BASIC_PASSWORD : Option String := none
  OAUTH2_AUTHORIZATION_CODE_ACCESS_TOKEN : Option String := none
  OAUTH2_CLIENT_CREDENTIALS_CLIENT_SECRET : Option String := none
deriving DecidableEq

/-- The environment variables consumed from the execution context. -/
structure Environment where
  ADDRESS : Option String := none
  OAUTH2_CLIENT_CREDENTIALS_TOKEN_URL : Option String := none
  OAUTH2_CLIENT_CREDENTIALS_CLIENT_ID : Option String := none
  OAUTH2_CLIENT_CREDENTIALS_SCOPE : Option String := none
  OAUTH2_CLIENT_CREDENTIALS_AUDIENCE : Option String := none
  OAUTH2_CLIENT_CREDENTIALS_AUTH_STYLE : Option String := none
deriving DecidableEq

/-- The execution context. -/
structure Context where
  environment : Environment := {}
  secrets : Secrets := {}
deriving DecidableEq

/-- The config object passed to getClientCredentialsToken. -/
structure CCConfig where
  tokenUrl : String
  clientId : String
  clientSecret : String
  scope : Option String := none
  audience : Option String := none
  authStyle : Option String := none
deriving DecidableEq

/-- An HTTP response from the OAuth2 token endpoint: status, statusText, the
error body as text (the JSON-stringified body when it parses), and the parsed
access_token field of a success body. -/
structure TokenResponse where
  status : Nat
  statusText : String
  bodyText : String
  access_token : Option String := none
deriving DecidableEq

/-- getClientCredentialsToken (bundled utils, source lines 260-317): validates
the config, builds the form-encoded POST (credentials in the form fields when
authStyle is InParams, else in a Basic Authorization header), issues it, and
extracts access_token from a 2xx response.  Errors here are plain JS Errors.
Returns the outcome and the trace of requests issued. -/
def getClientCredentialsToken (config : CCConfig) (resp : TokenResponse) :
    Except String String × List Request :=
  if config.tokenUrl = "" ∨ config.clientId = "" ∨ config.clientSecret = "" then
    (.error "OAuth2 Client Credentials flow requires tokenUrl, clientId, and clientSecret", [])
  else
    let ps0 := [("grant_type", "client_credentials")]
    let ps1 := ps0 ++ (if strTruthy config.scope then [("scope", config.scope.getD "")] else [])
    let ps2 := ps1 ++ (if strTruthy config.audience then [("audience", config.audience.getD "")] else [])
    let inParams : Bool := config.authStyle = some "InParams"
    let ps3 := if inParams then
        ps2 ++ [("client_id", config.clientId), ("client_secret", config.clientSecret)]
      else ps2
    let hdrs0 := [("Content-Type", "application/x-www-form-urlencoded"),
                  ("Accept", "application/json")]
    let hdrs := if inParams then hdrs0
      else hdrs0 ++ [("Authorization",
        "Basic " ++ base64Encode (utf8Bytes (config.clientId ++ ":" ++ config.clientSecret)))]
    let req := Request.token config.tokenUrl hdrs ps3
    if 200 ≤ resp.status ∧ resp.status ≤ 299 then
      if strTruthy resp.access_token then (.ok (resp.access_token.getD ""), [req])
      else (.error "No access_token in OAuth2 response", [req])
    else
      (.error ("OAuth2 token request failed: " ++ toString resp.status ++ " " ++
               resp.statusText ++ " - " ++ resp.bodyText), [req])

/-- getAuthorizationHeader (bundled utils, source lines 328-377): tries the
four credential methods in order and returns the first match.  tokenResp is
the token-endpoint response consumed when the client-credentials flow runs.
Returns the outcome and the trace of requests issued. -/
def getAuthorizationHeader (ctx : Context) (tokenResp : TokenResponse) :
    Except String String × List Request :=
  let env := ctx.environment
  let secrets := ctx.secrets
  if strTruthy secrets.BEARER_AUTH_TOKEN then
    let token := secrets.BEARER_AUTH_TOKEN.getD ""
    (.ok (if jsStartsWith token "Bearer " then token else "Bearer " ++ token), [])
  else if strTruthy secrets.BASIC_PASSWORD ∧ strTruthy secrets.BASIC_USERNAME then
    (.ok ("Basic " ++ base64Encode (utf8Bytes
        (secrets.BASIC_USERNAME.getD "" ++ ":" ++ secrets.BASIC_PASSWORD.getD ""))), [])
  else if strTruthy secrets.OAUTH2_AUTHORIZATION_CODE_ACCESS_TOKEN then
    let token := secrets.OAUTH2_AUTHORIZATION_CODE_ACCESS_TOKEN.getD ""
    (.ok (if jsStartsWith token "Bearer " then token else "Bearer " ++ token), [])
  else if strTruthy secrets.OAUTH2_CLIENT_CREDENTIALS_CLIENT_SECRET then
    if ¬ strTruthy env.OAUTH2_CLIENT_CREDENTIALS_TOKEN_URL ∨
        ¬ strTruthy env.OAUTH2_CLIENT_CREDENTIALS_CLIENT_ID then
      (.error "OAuth2 Client Credentials flow requires TOKEN_URL and CLIENT_ID in env", [])
    else
      match getClientCredentialsToken
          { tokenUrl := env.OAUTH2_CLIENT_CREDENTIALS_TOKEN_URL.getD ""
            clientId := env.OAUTH2_CLIENT_CREDENTIALS_CLIENT_ID.getD ""
            clientSecret := secrets.OAUTH2_CLIENT_CREDENTIALS_CLIENT_SECRET.getD ""
            scope := env.OAUTH2_CLIENT_CREDENTIALS_SCOPE
            audience := env.OAUTH2_CLIENT_CREDENTIALS_AUDIENCE
            authStyle := env.OAUTH2_CLIENT_CREDENTIALS_AUTH_STYLE } tokenResp with
      | (.ok token, tr) => (.ok ("Bearer " ++ token), tr)
      | (.error m, tr) => (.error m, tr)
  else
    (.error ("No authentication configured. Provide one of: " ++
      "BEARER_AUTH_TOKEN, BASIC_USERNAME/BASIC_PASSWORD, " ++
      "OAUTH2_AUTHORIZATION_CODE_ACCESS_TOKEN, or OAUTH2_CLIENT_CREDENTIALS_*"), [])

/-- A JS value sitting in the username parameter slot: missing (or null), a
string, or a value of another type with the given truthiness. -/
inductive JsField where
  | missing
  | str (s : String)
  | nonString (truthy : Bool)
deriving DecidableEq

/-- The string content of a username field, read after validation. -/
def JsField.asString : JsField → String
  | .str s => s
  | _ => ""

/-- The action parameters after JSONPath template resolution (the resolution
step itself lives in the external utils package and touches no network; invoke
is modelled on the resolved parameters). -/
structure Params where
  username : JsField := .missing
  delay : Option String := none
  address : Option String := none
deriving DecidableEq

/-- validateInputs (source lines 17-21): the username must be truthy, a
string, and non-blank after trimming, else a FatalError with a fixed
message. -/
def validateInputs (p : Params) : Except JsError Unit :=
  match p.username with
  | .str s =>
    if s ≠ "" ∧ jsTrim s ≠ "" then .ok ()
    else .error (.fatal "Invalid or missing username parameter")
  | _ => .error (.fatal "Invalid or missing username parameter")

/-- getBaseUrl (bundled utils, source lines 386-396): the address parameter
when truthy, else the ADDRESS environment variable; error when neither is
truthy; a single trailing slash is stripped. -/
def getBaseUrl (p : Params) (ctx : Context) : Except String String :=
  let address :=
    if strTruthy p.address then p.address.getD ""
    else ctx.environment.ADDRESS.getD ""
  if address = "" then
    .error "No URL specified. Provide address parameter or ADDRESS environment variable"
  else .ok (if jsEndsWith address "/" then address.dropRight 1 else address)

/-- The statementHandle-or-true coercion of the result fields (source lines
185-186): the handle when it is a truthy string, else the boolean true. -/
inductive HandleOrBool where
  | handle (s : String)
  | flag (b : Bool)
deriving DecidableEq

/-- data.statementHandle with the JS or-true fallback. -/
def handleOrTrue (h : Option String) : HandleOrBool :=
  match h with
  | some s => if s ≠ "" then .handle s else .flag true
  | none => .flag true

/-- The result object of a successful invoke (source lines 182-188). -/
structure InvokeResult where
  username : String
  sessionsRevoked : Bool
  userDisabled : HandleOrBool
  userReEnabled : HandleOrBool
  revokedAt : String
deriving DecidableEq

/-- The try-block body of invoke (source lines 152-191): validate, resolve
auth header and base URL, parse the delay, run the disable statement, wait,
run the enable statement, build the result.  resp1 and resp2 are the responses
to the two statement calls; now models the toISOString clock.  Returns the
outcome and the trace of outbound requests in order. -/
def invokeBody (p : Params) (ctx : Context) (tokenResp : TokenResponse)
    (resp1 resp2 : HttpResponse) (now : String) :
    Except JsError InvokeResult × List Request :=
  match validateInputs p with
  | .error e => (.error e, [])
  | .ok _ =>
    let username := p.username.asString
    match getAuthorizationHeader ctx tokenResp with
    | (.error m, tr) => (.error (.generic m), tr)
    | (.ok authHeader, tr) =>
      match getBaseUrl p ctx with
      | .error m => (.error (.generic m), tr)
      | .ok baseUrl =>
        let _delayMs := parseDuration p.delay
        let disableStatement := "ALTER USER " ++ username ++ " SET DISABLED = TRUE"
        match executeStatement disableStatement authHeader baseUrl resp1 with
        | (.error e, req1) => (.error e, tr ++ [req1])
        | (.ok disableResult, req1) =>
          let enableStatement := "ALTER USER " ++ username ++ " SET DISABLED = FALSE"
          match executeStatement enableStatement authHeader baseUrl resp2 with
          | (.error e, req2) => (.error e, tr ++ [req1, req2])
          | (.ok enableResult, req2) =>
            (.ok { username := username
                   sessionsRevoked := true
                   userDisabled := handleOrTrue disableResult.statementHandle
                   userReEnabled := handleOrTrue enableResult.statementHandle
                   revokedAt := now }, tr ++ [req1, req2])

/-- The catch-block classification of invoke (source lines 193-201): a
RetryableError or FatalError is rethrown unchanged; any other error is wrapped
as a FatalError with the Unexpected-error message. -/
def catchWrap : JsError → JsError
  | .retryable m => .retryable m
  | .fatal m => .fatal m
  | .generic m => .fatal ("Unexpected error: " ++ m)

/-- invoke (source lines 141-202): the body inside the try with the catch
classification applied to any error. -/
def invoke (p : Params) (ctx : Context) (tokenResp : TokenResponse)
    (resp1 resp2 : HttpResponse) (now : String) :
    Except JsError InvokeResult × List Request :=
  ((invokeBody p ctx tokenResp resp1 resp2 now).1.mapError catchWrap,
   (invokeBody p ctx tokenResp resp1 resp2 now).2)

/-- Parameters of the halt handler. -/
structure HaltParams where
  username : Option String := none
  reason : Option String := none
deriving DecidableEq

/-- The halt handler result (source lines 232-237). -/
structure HaltResult where
  username : String
  reason : String
  haltedAt : String
  cleanupCompleted : Bool
deriving DecidableEq

/-- halt (source lines 228-238): reports the username and reason (with the
unknown fallback for a falsy value), the halt time, and cleanupCompleted. -/
def halt (p : HaltParams) (now : String) : HaltResult :=
  { username := if strTruthy p.username then p.username.getD "" else "unknown"
    reason := if strTruthy p.reason then p.reason.getD "" else "unknown"
    haltedAt := now
    cleanupCompleted := true }

deriving instance DecidableEq for Except

/-- A truthy optional string is not the empty string after the getD read. -/
theorem strTruthy_getD_ne (o : Option String) (h : strTruthy o = true) :
    o.getD "" ≠ "" := by
  cases o with
  | none => simp [strTruthy] at h
  | some s =>
    simp only [strTruthy, Bool.not_eq_true', beq_eq_false_iff_ne] at h
    simpa using h

/-- determineTokenType only ever returns one of its two nonempty literals. -/
theorem determineTokenType_cases (t : String) :
    determineTokenType t = "KEYPAIR_JWT" ∨ determineTokenType t = "OAUTH" := by
  unfold determineTokenType
  split
  · exact Or.inl rfl
  · exact Or.inr rfl

/-- C4: parseDuration is total and never fails: the sample durations map to
their millisecond values, a missing or empty input maps to the default 100,
and every string that does not match the duration regex maps to 100 with the
warning flag set rather than an error. -/
theorem c4_parseDuration_total_lenient :
    parseDuration none = ⟨100, false⟩ ∧
    parseDuration (some "") = ⟨100, false⟩ ∧
    parseDuration (some "100ms") = ⟨100, false⟩ ∧
    parseDuration (some "2s") = ⟨2000, false⟩ ∧
    parseDuration (some "1m") = ⟨60000, false⟩ ∧
    parseDuration (some "1h") = ⟨3600000, false⟩ ∧
    (∀ s, s ≠ "" → durMatch s = none → parseDuration (some s) = ⟨100, true⟩) := by
  refine ⟨rfl, rfl, ?_, ?_, ?_, ?_, ?_⟩
  · have h : parseDuration (some "100ms") = ⟨((100 : Nat) : Rat) * unitFactor "ms", false⟩ := rfl
    rw [h, show unitFactor "ms" = 1 from rfl,
        show ((100 : Nat) : Rat) * 1 = 100 by norm_num]
  · have h : parseDuration (some "2s") = ⟨((2 : Nat) : Rat) * unitFactor "s", false⟩ := rfl
    rw [h, show unitFactor "s" = 1000 from rfl,
        show ((2 : Nat) : Rat) * 1000 = 2000 by norm_num]
  · have h : parseDuration (some "1m") = ⟨((1 : Nat) : Rat) * unitFactor "m", false⟩ := rfl
    rw [h, show unitFactor "m" = 60 * 1000 from rfl,
        show ((1 : Nat) : Rat) * (60 * 1000) = 60000 by norm_num]
  · have h : parseDuration (some "1h") = ⟨((1 : Nat) : Rat) * unitFactor "h", false⟩ := rfl
    rw [h, show unitFactor "h" = 60 * 60 * 1000 from rfl,
        show ((1 : Nat) : Rat) * (60 * 60 * 1000) = 3600000 by norm_num]
  · intro s hs hm
    unfold parseDuration
    simp [hs, hm]

/-- C4 witness: a concrete garbage string falls back to the 100 ms default
with the warning flag, via the last clause of the theorem. -/
theorem c4_parseDuration_total_lenient_witness :
    "xyz" ≠ "" ∧ durMatch "xyz" = none ∧ parseDuration (some "xyz") = ⟨100, true⟩ :=
  ⟨by decide, rfl, c4_parseDuration_total_lenient.2.2.2.2.2.2 "xyz" (by decide) rfl⟩

/-- C7: determineTokenType returns KEYPAIR_JWT for exactly those strings that
split on the dot into three segments, and OAUTH for every other string (the
truthiness guard is redundant: the empty string splits into one segment). -/
theorem c7_determineTokenType_exact (t : String) :
    determineTokenType t =
      (if (jsSplitDot t).length = 3 then "KEYPAIR_JWT" else "OAUTH") := by
  by_cases he : t = ""
  · subst he; decide
  · unfold determineTokenType
    by_cases h3 : (jsSplitDot t).length = 3
    · simp [he, h3]
    · simp [h3]

/-- C9: halt reports the given username and reason with the unknown fallback,
the halt timestamp, and cleanupCompleted = true; in particular the bob/timeout
call and the missing-username call give the stated results. -/
theorem c9_halt_result (p : HaltParams) (now : String) :
    (halt p now).haltedAt = now ∧
    (halt p now).cleanupCompleted = true ∧
    (∀ u, p.username = some u → u ≠ "" → (halt p now).username = u) ∧
    (p.username = none → (halt p now).username = "unknown") ∧
    (∀ r, p.reason = some r → r ≠ "" → (halt p now).reason = r) ∧
    halt { username := some "bob", reason := some "timeout" } now =
      { username := "bob", reason := "timeout", haltedAt := now, cleanupCompleted := true } ∧
    (halt { username := none, reason := some "x" } now).username = "unknown" := by
  refine ⟨rfl, rfl, ?_, ?_, ?_, ?_, rfl⟩
  · intro u hu hne
    simp [halt, hu, strTruthy, hne]
  · intro hu
    simp [halt, hu, strTruthy]
  · intro r hr hne
    simp [halt, hr, strTruthy, hne]
  · simp [halt, strTruthy]

/-- C9 witness: the two concrete halt calls of the claim, at a fixed clock. -/
theorem c9_halt_result_witness :
    halt { username := some "bob", reason := some "timeout" } "2024-01-01T00:00:00.000Z" =
      { username := "bob", reason := "timeout",
        haltedAt := "2024-01-01T00:00:00.000Z", cleanupCompleted := true } ∧
    (halt { username := none, reason := some "x" } "2024-01-01T00:00:00.000Z").username = "unknown" ∧
    (halt { username := some "bob", reason := some "timeout" } "2024-01-01T00:00:00.000Z").username = "bob" :=
  ⟨(c9_halt_result { username := some "bob", reason := some "timeout" } "2024-01-01T00:00:00.000Z").2.2.2.2.2.1,
   (c9_halt_result { username := none, reason := some "x" } "2024-01-01T00:00:00.000Z").2.2.2.2.2.2,
   (c9_halt_result { username := some "bob", reason := some "timeout" } "2024-01-01T00:00:00.000Z").2.2.1
     "bob" rfl (by decide)⟩

/-- C10: the vendor token-type header is present on every statement request:
determineTokenType always returns one of its two nonempty values (OAUTH even
for the empty token), so the conditional add-header guard is always taken. -/
theorem c10_token_type_header_always_sent (authHeader : String) :
    (determineTokenType (stripBearer authHeader) = "KEYPAIR_JWT" ∨
      determineTokenType (stripBearer authHeader) = "OAUTH") ∧
    ("X-Snowflake-Authorization-Token-Type",
        determineTokenType (stripBearer authHeader)) ∈ statementHeaders authHeader ∧
    determineTokenType "" = "OAUTH" := by
  refine ⟨determineTokenType_cases _, ?_, by decide⟩
  have hne : determineTokenType (stripBearer authHeader) ≠ "" := by
    rcases determineTokenType_cases (stripBearer authHeader) with h | h <;> simp [h]
  unfold statementHeaders
  simp [hne]

/-- C1: for every non-2xx response, executeStatement raises exactly the error
kind of the status table: 429 a retryable rate-limit error, 401 and 403 fatal
credential and permission errors, 422 a fatal invalid-SQL error carrying the
body, any status of at least 500 a retryable server error, and every other
non-2xx status a fatal generic failure carrying status, reason and body. -/
theorem c1_executeStatement_status_mapping
    (stmt authHeader baseUrl : String) (resp : HttpResponse)
    (hne : ¬ (200 ≤ resp.status ∧ resp.status ≤ 299)) :
    (resp.status = 429 →
      (executeStatement stmt authHeader baseUrl resp).1 =
        .error (.retryable "Snowflake API rate limit exceeded")) ∧
    (resp.status = 401 →
      (executeStatement stmt authHeader baseUrl resp).1 =
        .error (.fatal "Invalid or expired authentication token")) ∧
    (resp.status = 403 →
      (executeStatement stmt authHeader baseUrl resp).1 =
        .error (.fatal "Insufficient permissions to execute statement")) ∧
    (resp.status = 422 →
      (executeStatement stmt authHeader baseUrl resp).1 =
        .error (.fatal ("Invalid SQL statement: " ++ resp.bodyText))) ∧
    (500 ≤ resp.status →
      (executeStatement stmt authHeader baseUrl resp).1 =
        .error (.retryable ("Snowflake API server error: " ++ toString resp.status))) ∧
    (resp.status ≠ 429 → resp.status ≠ 401 → resp.status ≠ 403 →
     resp.status ≠ 422 → resp.status < 500 →
      (executeStatement stmt authHeader baseUrl resp).1 =
        .error (.fatal ("Failed to execute statement: " ++ toString resp.status ++
          " " ++ resp.statusText ++ " - " ++ resp.bodyText))) := by
  have ho : (executeStatement stmt authHeader baseUrl resp).1 = statementOutcome resp := rfl
  refine ⟨?_, ?_, ?_, ?_, ?_, ?_⟩
  · intro h
    rw [ho]; unfold statementOutcome
    simp [h]
  · intro h
    rw [ho]; unfold statementOutcome
    simp [h]
  · intro h
    rw [ho]; unfold statementOutcome
    simp [h]
  · intro h
    rw [ho]; unfold statementOutcome
    simp [h]
  · intro h
    rw [ho]; unfold statementOutcome
    rw [if_neg (by omega), if_neg (by omega), if_neg (by omega),
        if_neg (by omega), if_neg (by omega), if_pos h]
  · intro h429 h401 h403 h422 h500
    rw [ho]; unfold statementOutcome
    rw [if_neg hne, if_neg h429, if_neg h401, if_neg h403, if_neg h422,
        if_neg (by omega)]

/-- C1 witness: a concrete 503 response raises the retryable server error. -/
theorem c1_executeStatement_status_mapping_witness :
    ¬ ((200 : Nat) ≤ 503 ∧ (503 : Nat) ≤ 299) ∧
    (executeStatement "SELECT 1" "Bearer t" "https://sf.example.com"
        { status := 503, statusText := "Service Unavailable", bodyText := "oops",
          data := { statementHandle := none } }).1 =
      .error (.retryable ("Snowflake API server error: " ++ toString (503 : Nat))) :=
  ⟨by decide,
   (c1_executeStatement_status_mapping "SELECT 1" "Bearer t" "https://sf.example.com"
      { status := 503, statusText := "Service Unavailable", bodyText := "oops",
        data := { statementHandle := none } }
      (by decide)).2.2.2.2.1 (by decide)⟩

/-- C3: whenever the username parameter is missing, not a string, or blank
after trimming, invoke fails with the fatal fixed-message error and the trace
of outbound requests is empty: no statement call and no token-endpoint call
happens before the failure. -/
theorem c3_invalid_username_fatal_no_network
    (p : Params) (ctx : Context) (tokenResp : TokenResponse)
    (resp1 resp2 : HttpResponse) (now : String)
    (h : ∀ s, p.username = JsField.str s → jsTrim s = "") :
    invoke p ctx tokenResp resp1 resp2 now =
      (.error (.fatal "Invalid or missing username parameter"), []) := by
  have hv : validateInputs p = .error (.fatal "Invalid or missing username parameter") := by
    unfold validateInputs
    cases hu : p.username with
    | missing => rfl
    | nonString t => rfl
    | str s =>
      have hts := h s hu
      simp [hts]
  unfold invoke invokeBody
  rw [hv]
  rfl

/-- C3 witness: invoke with a missing username fails fatally with the fixed
message and an empty request trace. -/
theorem c3_invalid_username_fatal_no_network_witness :
    invoke { username := JsField.missing } {}
        { status := 200, statusText := "", bodyText := "" }
        { status := 200, statusText := "", bodyText := "", data := { statementHandle := none } }
        { status := 200, statusText := "", bodyText := "", data := { statementHandle := none } }
        "2024-01-01T00:00:00.000Z" =
      (.error (.fatal "Invalid or missing username parameter"), []) :=
  c3_invalid_username_fatal_no_network { username := JsField.missing } {}
    { status := 200, statusText := "", bodyText := "" }
    { status := 200, statusText := "", bodyText := "", data := { statementHandle := none } }
    { status := 200, statusText := "", bodyText := "", data := { statementHandle := none } }
    "2024-01-01T00:00:00.000Z"
    (fun _s hs => JsField.noConfusion hs)

/-- C6: bearer prefixing is idempotent: a truthy bearer secret that already
starts with the Bearer prefix is returned unchanged, and one without the
prefix is returned with the prefix prepended. -/
theorem c6_bearer_idempotent (ctx : Context) (tokenResp : TokenResponse)
    (hb : strTruthy ctx.secrets.BEARER_AUTH_TOKEN = true) :
    (jsStartsWith (ctx.secrets.BEARER_AUTH_TOKEN.getD "") "Bearer " = true →
      (getAuthorizationHeader ctx tokenResp).1 =
        .ok (ctx.secrets.BEARER_AUTH_TOKEN.getD "")) ∧
    (jsStartsWith (ctx.secrets.BEARER_AUTH_TOKEN.getD "") "Bearer " = false →
      (getAuthorizationHeader ctx tokenResp).1 =
        .ok ("Bearer " ++ ctx.secrets.BEARER_AUTH_TOKEN.getD "")) := by
  constructor
  · intro hs
    unfold getAuthorizationHeader
    simp [hb, hs]
  · intro hs
    unfold getAuthorizationHeader
    simp [hb, hs]

/-- C6 witness: an already-prefixed bearer secret is passed through unchanged,
and an unprefixed one gains the prefix. -/
theorem c6_bearer_idempotent_witness :
    (getAuthorizationHeader
        { secrets := { BEARER_AUTH_TOKEN := some "Bearer abc" } }
        { status := 200, statusText := "", bodyText := "" }).1 = .ok "Bearer abc" ∧
    (getAuthorizationHeader
        { secrets := { BEARER_AUTH_TOKEN := some "abc" } }
        { status := 200, statusText := "", bodyText := "" }).1 = .ok ("Bearer " ++ "abc") :=
  ⟨(c6_bearer_idempotent
      { secrets := { BEARER_AUTH_TOKEN := some "Bearer abc" } }
      { status := 200, statusText := "", bodyText := "" } (by decide)).1 (by decide),
   (c6_bearer_idempotent
      { secrets := { BEARER_AUTH_TOKEN := some "abc" } }
      { status := 200, statusText := "", bodyText := "" } (by decide)).2 (by decide)⟩

/-- C8: every error raised out of invoke carries a retryable flag: an error
already classified as retryable or fatal is re-raised unchanged, any other
exception is wrapped as a fatal error with the Unexpected-error message, and
no unclassified error escapes invoke. -/
theorem c8_invoke_errors_classified
    (p : Params) (ctx : Context) (tokenResp : TokenResponse)
    (resp1 resp2 : HttpResponse) (now : String) :
    (∀ e : JsError, (JsError.retryableFlag e).isSome = true →
      (invokeBody p ctx tokenResp resp1 resp2 now).1 = .error e →
      (invoke p ctx tokenResp resp1 resp2 now).1 = .error e) ∧
    (∀ m, (invokeBody p ctx tokenResp resp1 resp2 now).1 = .error (.generic m) →
      (invoke p ctx tokenResp resp1 resp2 now).1 =
        .error (.fatal ("Unexpected error: " ++ m))) ∧
    (∀ e, (invoke p ctx tokenResp resp1 resp2 now).1 = .error e →
      (JsError.retryableFlag e).isSome = true) := by
  refine ⟨?_, ?_, ?_⟩
  · intro e he hb
    unfold invoke
    rw [hb]
    cases e with
    | retryable m => rfl
    | fatal m => rfl
    | generic m => simp [JsError.retryableFlag] at he
  · intro m hb
    unfold invoke
    rw [hb]
    rfl
  · intro e hi
    unfold invoke at hi
    cases hb : (invokeBody p ctx tokenResp resp1 resp2 now).1 with
    | ok v => rw [hb] at hi; exact absurd hi (by simp [Except.mapError])
    | error eb =>
      rw [hb] at hi
      simp only [Except.mapError, Except.error.injEq] at hi
      subst hi
      cases eb <;> simp [catchWrap, JsError.retryableFlag]

/-- C8 witness: the validation failure is a FatalError and is re-raised by the
catch block unchanged, carrying retryable = false. -/
theorem c8_invoke_errors_classified_witness :
    (invoke { username := JsField.missing } {}
        { status := 200, statusText := "", bodyText := "" }
        { status := 200, statusText := "", bodyText := "", data := { statementHandle := none } }
        { status := 200, statusText := "", bodyText := "", data := { statementHandle := none } }
        "T").1 = .error (.fatal "Invalid or missing username parameter") ∧
    (JsError.retryableFlag (.fatal "Invalid or missing username parameter")).isSome = true :=
  ⟨(c8_invoke_errors_classified { username := JsField.missing } {}
      { status := 200, statusText := "", bodyText := "" }
      { status := 200, statusText := "", bodyText := "", data := { statementHandle := none } }
      { status := 200, statusText := "", bodyText := "", data := { statementHandle := none } }
      "T").1 (.fatal "Invalid or missing username parameter") (by decide) (by decide),
   by decide⟩

/-- C2: an invocation with username alice whose two statement calls both
return HTTP 200 with statement handles h1 and h2 returns the result object
with username alice, sessionsRevoked true, the two handles, and the
toISOString timestamp of the clock. -/
theorem c2_invoke_end_to_end
    (p : Params) (ctx : Context) (tokenResp : TokenResponse)
    (resp1 resp2 : HttpResponse) (now : String)
    (authHeader baseUrl : String) (tr : List Request)
    (hu : p.username = JsField.str "alice")
    (hauth : getAuthorizationHeader ctx tokenResp = (.ok authHeader, tr))
    (hbase : getBaseUrl p ctx = .ok baseUrl)
    (h1s : resp1.status = 200) (h1d : resp1.data = { statementHandle := some "h1" })
    (h2s : resp2.status = 200) (h2d : resp2.data = { statementHandle := some "h2" }) :
    (invoke p ctx tokenResp resp1 resp2 now).1 =
      .ok { username := "alice", sessionsRevoked := true,
            userDisabled := .handle "h1", userReEnabled := .handle "h2",
            revokedAt := now } := by
  have hv : validateInputs p = .ok () := by
    unfold validateInputs
    rw [hu]
    decide
  have ho1 : statementOutcome resp1 = .ok { statementHandle := some "h1" } := by
    unfold statementOutcome
    rw [if_pos (by omega), h1d]
  have ho2 : statementOutcome resp2 = .ok { statementHandle := some "h2" } := by
    unfold statementOutcome
    rw [if_pos (by omega), h2d]
  unfold invoke invokeBody
  rw [hv, hauth, hbase, hu]
  simp only [executeStatement]
  rw [ho1, ho2]
  rfl

/-- C2 witness: the end-to-end run at a concrete bearer-auth context, address
and clock, with 200-plus-handle responses for both statement calls. -/
theorem c2_invoke_end_to_end_witness :
    (invoke { username := JsField.str "alice", address := some "https://sf.example.com" }
        { secrets := { BEARER_AUTH_TOKEN := some "tok" } }
        { status := 200, statusText := "", bodyText := "" }
        { status := 200, statusText := "OK", bodyText := "", data := { statementHandle := some "h1" } }
        { status := 200, statusText := "OK", bodyText := "", data := { statementHandle := some "h2" } }
        "2024-01-01T00:00:00.000Z").1 =
      .ok { username := "alice", sessionsRevoked := true,
            userDisabled := .handle "h1", userReEnabled := .handle "h2",
            revokedAt := "2024-01-01T00:00:00.000Z" } :=
  c2_invoke_end_to_end
    { username := JsField.str "alice", address := some "https://sf.example.com" }
    { secrets := { BEARER_AUTH_TOKEN := some "tok" } }
    { status := 200, statusText := "", bodyText := "" }
    { status := 200, statusText := "OK", bodyText := "", data := { statementHandle := some "h1" } }
    { status := 200, statusText := "OK", bodyText := "", data := { statementHandle := some "h2" } }
    "2024-01-01T00:00:00.000Z" "Bearer tok" "https://sf.example.com" []
    rfl (by decide) (by decide) rfl rfl rfl rfl

/-- C5: the auth resolver tries bearer, basic, authorization-code token and
client-credentials in that fixed order and the first method whose credentials
are present wins; in particular a present bearer secret wins over present
basic secrets, and with no credentials at all it fails with the
no-authentication-configured error. -/
theorem c5_auth_precedence (ctx : Context) (tokenResp : TokenResponse) :
    (strTruthy ctx.secrets.BEARER_AUTH_TOKEN = true →
      (getAuthorizationHeader ctx tokenResp).1 =
        .ok (if jsStartsWith (ctx.secrets.BEARER_AUTH_TOKEN.getD "") "Bearer "
             then ctx.secrets.BEARER_AUTH_TOKEN.getD ""
             else "Bearer " ++ ctx.secrets.BEARER_AUTH_TOKEN.getD "")) ∧
    (strTruthy ctx.secrets.BEARER_AUTH_TOKEN = false →
     strTruthy ctx.secrets.BASIC_PASSWORD = true →
     strTruthy ctx.secrets.BASIC_USERNAME = true →
      (getAuthorizationHeader ctx tokenResp).1 =
        .ok ("Basic " ++ base64Encode (utf8Bytes
          (ctx.secrets.BASIC_USERNAME.getD "" ++ ":" ++ ctx.secrets.BASIC_PASSWORD.getD "")))) ∧
    (strTruthy ctx.secrets.BEARER_AUTH_TOKEN = false →
     (strTruthy ctx.secrets.BASIC_PASSWORD = false ∨ strTruthy ctx.secrets.BASIC_USERNAME = false) →
     strTruthy ctx.secrets.OAUTH2_AUTHORIZATION_CODE_ACCESS_TOKEN = true →
      (getAuthorizationHeader ctx tokenResp).1 =
        .ok (if jsStartsWith (ctx.secrets.OAUTH2_AUTHORIZATION_CODE_ACCESS_TOKEN.getD "") "Bearer "
             then ctx.secrets.OAUTH2_AUTHORIZATION_CODE_ACCESS_TOKEN.getD ""
             else "Bearer " ++ ctx.secrets.OAUTH2_AUTHORIZATION_CODE_ACCESS_TOKEN.getD "")) ∧
    (strTruthy ctx.secrets.BEARER_AUTH_TOKEN = false →
     (strTruthy ctx.secrets.BASIC_PASSWORD = false ∨ strTruthy ctx.secrets.BASIC_USERNAME = false) →
     strTruthy ctx.secrets.OAUTH2_AUTHORIZATION_CODE_ACCESS_TOKEN = false →
     strTruthy ctx.secrets.OAUTH2_CLIENT_CREDENTIALS_CLIENT_SECRET = true →
     strTruthy ctx.environment.OAUTH2_CLIENT_CREDENTIALS_TOKEN_URL = true →
     strTruthy ctx.environment.OAUTH2_CLIENT_CREDENTIALS_CLIENT_ID = true →
     200 ≤ tokenResp.status → tokenResp.status ≤ 299 →
     strTruthy tokenResp.access_token = true →
      (getAuthorizationHeader ctx tokenResp).1 =
        .ok ("Bearer " ++ tokenResp.access_token.getD "") ∧
      (getAuthorizationHeader ctx tokenResp).2 ≠ []) ∧
    (strTruthy ctx.secrets.BEARER_AUTH_TOKEN = false →
     (strTruthy ctx.secrets.BASIC_PASSWORD = false ∨ strTruthy ctx.secrets.BASIC_USERNAME = false) →
     strTruthy ctx.secrets.OAUTH2_AUTHORIZATION_CODE_ACCESS_TOKEN = false →
     strTruthy ctx.secrets.OAUTH2_CLIENT_CREDENTIALS_CLIENT_SECRET = false →
      (getAuthorizationHeader ctx tokenResp).1 =
        .error ("No authentication configured. Provide one of: " ++
          "BEARER_AUTH_TOKEN, BASIC_USERNAME/BASIC_PASSWORD, " ++
          "OAUTH2_AUTHORIZATION_CODE_ACCESS_TOKEN, or OAUTH2_CLIENT_CREDENTIALS_*")) := by
  refine ⟨?_, ?_, ?_, ?_, ?_⟩
  · intro h1
    unfold getAuthorizationHeader
    simp [h1]
  · intro h1 h2p h2u
    unfold getAuthorizationHeader
    simp [h1, h2p, h2u]
  · intro h1 h2 h3
    unfold getAuthorizationHeader
    rcases h2 with h2 | h2 <;> simp [h1, h2, h3]
  · intro h1 h2 h3 h4 h5 h6 h7 h8 h9
    have hne1 := strTruthy_getD_ne _ h5
    have hne2 := strTruthy_getD_ne _ h6
    have hne3 := strTruthy_getD_ne _ h4
    unfold getAuthorizationHeader
    have hcc : getClientCredentialsToken
        { tokenUrl := ctx.environment.OAUTH2_CLIENT_CREDENTIALS_TOKEN_URL.getD ""
          clientId := ctx.environment.OAUTH2_CLIENT_CREDENTIALS_CLIENT_ID.getD ""
          clientSecret := ctx.secrets.OAUTH2_CLIENT_CREDENTIALS_CLIENT_SECRET.getD ""
          scope := ctx.environment.OAUTH2_CLIENT_CREDENTIALS_SCOPE
          audience := ctx.environment.OAUTH2_CLIENT_CREDENTIALS_AUDIENCE
          authStyle := ctx.environment.OAUTH2_CLIENT_CREDENTIALS_AUTH_STYLE } tokenResp =
        (.ok (tokenResp.access_token.getD ""),
         [Request.token (ctx.environment.OAUTH2_CLIENT_CREDENTIALS_TOKEN_URL.getD "")
           (if (ctx.environment.OAUTH2_CLIENT_CREDENTIALS_AUTH_STYLE = some "InParams" : Bool) then
              [("Content-Type", "application/x-www-form-urlencoded"), ("Accept", "application/json")]
            else
              [("Content-Type", "application/x-www-form-urlencoded"), ("Accept", "application/json")] ++
              [("Authorization", "Basic " ++ base64Encode (utf8Bytes
                (ctx.environment.OAUTH2_CLIENT_CREDENTIALS_CLIENT_ID.getD "" ++ ":" ++
                 ctx.secrets.OAUTH2_CLIENT_CREDENTIALS_CLIENT_SECRET.getD "")))])
           (let ps2 := [("grant_type", "client_credentials")] ++
              (if strTruthy ctx.environment.OAUTH2_CLIENT_CREDENTIALS_SCOPE then
                [("scope", ctx.environment.OAUTH2_CLIENT_CREDENTIALS_SCOPE.getD "")] else []) ++
              (if strTruthy ctx.environment.OAUTH2_CLIENT_CREDENTIALS_AUDIENCE then
                [("audience", ctx.environment.OAUTH2_CLIENT_CREDENTIALS_AUDIENCE.getD "")] else []);
            if (ctx.environment.OAUTH2_CLIENT_CREDENTIALS_AUTH_STYLE = some "InParams" : Bool) then
              ps2 ++ [("client_id", ctx.environment.OAUTH2_CLIENT_CREDENTIALS_CLIENT_ID.getD ""),
                      ("client_secret", ctx.secrets.OAUTH2_CLIENT_CREDENTIALS_CLIENT_SECRET.getD "")]
            else ps2)]) := by
      unfold getClientCredentialsToken
      rw [if_neg (by push_neg; exact ⟨hne1, hne2, hne3⟩),
          if_pos ⟨h7, h8⟩, if_pos h9]
    rcases h2 with h2 | h2 <;> simp [h1, h2, h3, h4, h5, h6, hcc]
  · intro h1 h2 h3 h4
    unfold getAuthorizationHeader
    rcases h2 with h2 | h2 <;> simp [h1, h2, h3, h4]

/-- C5 witness: with both a bearer secret and basic-auth secrets present, the
resolver returns the bearer-derived header, not the Basic one. -/
theorem c5_auth_precedence_witness :
    strTruthy (some "tok") = true ∧
    (getAuthorizationHeader
        { secrets := { BEARER_AUTH_TOKEN := some "tok",
                       BASIC_USERNAME := some "u", BASIC_PASSWORD := some "p" } }
        { status := 200, statusText := "", bodyText := "" }).1 = .ok ("Bearer " ++ "tok") :=
  ⟨by decide,
   (c5_auth_precedence
      { secrets := { BEARER_AUTH_TOKEN := some "tok",
                     BASIC_USERNAME := some "u", BASIC_PASSWORD := some "p" } }
      { status := 200, statusText := "", bodyText := "" }).1 (by decide)⟩

end SnowflakeRevoke
